import Mathlib

/-!
Verification development for the Archived-News-RAG presentation layer.

The definitions below are a shallow embedding of the TypeScript frontend:
the data model (`frontend/src/types/index.ts`), the submit handler of
`frontend/src/App.tsx`, the hardcoded-response service
(`frontend/src/services/hardcodedResponses.ts`), and the rendering logic of
the `RetrievedContext` and `ResponseCards` components, including the
citation-marker splitting of `processText`.  Floating-point numbers of the
source are modelled as rationals; JSX output is modelled as explicit view
data structures.
-/

/-- One retrieved context item, from `frontend/src/types/index.ts`
(`RetrievedContextItem`): `article_id` and `min_distance` are optional
fields there, hence `Option` here. -/
structure RetrievedContextItem where
  text : String
  source : String
  title : String
  date : String
  article_id : Option String
  min_distance : Option ℚ
deriving DecidableEq, Repr

/-- The Query API response shape, from `frontend/src/types/index.ts`
(`ApiResponse`): exactly the fields `standard_response`, `rag_response`,
`retrieved_chunks` and the optional `error`. -/
structure ApiResponse where
  standard_response : String
  rag_response : String
  retrieved_chunks : List RetrievedContextItem
  error : Option String
deriving DecidableEq, Repr

/-- The React state of `App` (`frontend/src/App.tsx` lines 16-23): the six
`useState` hooks `query`, `standardResponse`, `ragResponse`,
`retrievedContext`, `loading`, `error`. -/
structure AppState where
  query : String
  standardResponse : String
  ragResponse : String
  retrievedContext : List RetrievedContextItem
  loading : Bool
  error : String
deriving DecidableEq, Repr

/-- The JS `String.prototype.trim`: strip leading and trailing whitespace.
Modelled directly over the character list so that it is kernel-computable. -/
def jsTrim (s : String) : String :=
  String.mk
    (((s.data.dropWhile Char.isWhitespace).reverse.dropWhile
      Char.isWhitespace).reverse)

/-- The JS `String.prototype.toLowerCase`, modelled directly over the
character list so that it is kernel-computable. -/
def jsToLower (s : String) : String :=
  String.mk (s.data.map Char.toLower)

/-! ## Hardcoded-response service (`frontend/src/services/hardcodedResponses.ts`) -/

/-- The `validation` block of a stored record's metadata
(`hardcodedResponses.ts` lines 18-26). -/
structure HardcodedValidation where
  has_content : Bool
  has_citations : Bool
  context_count : Nat
  response_length : Nat
  appears_relevant : Bool
  no_error_markers : Bool
  overall_quality : Bool
deriving DecidableEq, Repr

/-- The optional `metadata` of a stored record (`hardcodedResponses.ts`
lines 11-27). -/
structure HardcodedMetadata where
  generation_time : ℚ
  standard_llm_time : ℚ
  retrieval_time : ℚ
  rag_llm_time : ℚ
  total_llm_time : ℚ
  context_chars : Nat
  validation : HardcodedValidation
deriving DecidableEq, Repr

/-- One stored record of `hardcoded_responses.json`
(`hardcodedResponses.ts` interface `HardcodedResponse`, lines 5-28). -/
structure HardcodedResponse where
  question : String
  category : String
  standard_response : String
  rag_response : String
  context : List RetrievedContextItem
  metadata : Option HardcodedMetadata
deriving DecidableEq, Repr

/-- The `metadata` object built by `getHardcodedResponse`
(`hardcodedResponses.ts` lines 96-103). -/
structure ResponseMetadata where
  query : String
  retrieval_time : ℚ
  llm_time : ℚ
  total_time : ℚ
  chunks_retrieved : Nat
  total_context_length : Nat
deriving DecidableEq, Repr

/-- The value returned by `getHardcodedResponse` on a hit
(`hardcodedResponses.ts` lines 92-104): the `ApiResponse` fields plus the
`metadata` object it attaches. -/
structure HardcodedApiResponse where
  standard_response : String
  rag_response : String
  retrieved_chunks : List RetrievedContextItem
  metadata : ResponseMetadata
deriving DecidableEq, Repr

/-- The hardcoded store `responses.responses`, a JS `Record` modelled as its
`Object.entries` list of (id, record) pairs in insertion order. -/
abbrev HardcodedStore := List (String × HardcodedResponse)

/-- `findResponseByQuestion` (`hardcodedResponses.ts` lines 58-65): the id
of the first stored record whose question equals the query
case-insensitively, else `none`. -/
def findResponseByQuestion (store : HardcodedStore) (question : String) :
    Option String :=
  (store.find? fun p => jsToLower p.2.question == jsToLower question).map (·.1)

/-- `getHardcodedResponse` (`hardcodedResponses.ts` lines 71-108): look the
question up, and on a hit re-read the record by its id
(`responses.responses[responseId]`) and repackage it as an API response.
The JS optional-chaining defaults `metadata?.x || 0` become `Option`
projections defaulting to `0`. -/
def getHardcodedResponse (store : HardcodedStore) (question : String) :
    Option HardcodedApiResponse :=
  match findResponseByQuestion store question with
  | none => none
  | some responseId =>
    match store.find? (fun p => p.1 == responseId) with
    | none => none
    | some (_, hr) =>
      some
        { standard_response := hr.standard_response
          rag_response := hr.rag_response
          retrieved_chunks := hr.context
          metadata :=
            { query := question
              retrieval_time := (hr.metadata.map (·.retrieval_time)).getD 0
              llm_time := (hr.metadata.map (·.total_llm_time)).getD 0
              total_time := (hr.metadata.map (·.generation_time)).getD 0
              chunks_retrieved := hr.context.length
              total_context_length :=
                (hr.metadata.map (·.context_chars)).getD 0 } }

/-! ## `RetrievedContext` component
(`frontend/src/components/RetrievedContext.tsx`) -/

/-- Result of `formatDate` (`RetrievedContext.tsx` lines 14-25): a falsy
(empty) date string renders as the literal string N/A, otherwise the raw
date string is locale-formatted; the locale formatting itself is a browser
concern, so the rendered value just carries the raw string. -/
inductive DateDisp where
  | na : DateDisp
  | formatted : String → DateDisp
deriving DecidableEq, Repr

/-- `formatDate` (`RetrievedContext.tsx` lines 14-25). -/
def formatDate (dateString : String) : DateDisp :=
  if dateString = "" then .na else .formatted dateString

/-- The headline of one reference entry (`RetrievedContext.tsx` lines
98-126): a title linked to the source URL, a bare title, a bare linked
source URL, or the fallback text with the entry's 1-based number. -/
inductive HeadlineDisp where
  | linkedTitle : String → String → HeadlineDisp
  | plainTitle : String → HeadlineDisp
  | linkedSource : String → HeadlineDisp
  | retrievedArticle : Nat → HeadlineDisp
deriving DecidableEq, Repr

/-- The rendered card for one retrieved item (`RetrievedContext.tsx` lines
86-148): the green citation badge number, the headline, the date chip, the
optional similarity chip, the body text, and the item the card was built
from. -/
structure ReferenceEntry where
  citationIndex : Nat
  headline : HeadlineDisp
  dateDisplay : DateDisp
  similarity : Option ℚ
  bodyText : String
  sourceItem : RetrievedContextItem
deriving DecidableEq, Repr

/-- Rendering of a single item at 0-based `index`
(`RetrievedContext.tsx` lines 86-148).  The similarity chip is shown only
when `min_distance` is a number and its value is `1 - min_distance`
(line 137); the JS truthiness tests on `title` and `source` become
non-emptiness tests. -/
def renderReferenceEntry (index : Nat) (item : RetrievedContextItem) :
    ReferenceEntry :=
  { citationIndex := index + 1
    headline :=
      if item.title ≠ "Source Title Missing" ∧ item.title ≠ "" then
        if item.source ≠ "Source URL Missing" ∧ item.source ≠ "" then
          .linkedTitle item.source item.title
        else
          .plainTitle item.title
      else if item.source ≠ "Source URL Missing" ∧ item.source ≠ "" then
        .linkedSource item.source
      else
        .retrievedArticle (index + 1)
    dateDisplay := formatDate item.date
    similarity := item.min_distance.map (fun d => 1 - d)
    bodyText := item.text
    sourceItem := item }

/-- The rendered references panel (`RetrievedContext.tsx` lines 31-167):
the count badge and the list of entries shown when the panel is open. -/
structure ReferencesBox where
  count : Nat
  entries : List ReferenceEntry
deriving DecidableEq, Repr

/-- The `RetrievedContext` component (`RetrievedContext.tsx`): returns
`null` (`none`) when the list is empty (lines 27-29), otherwise the panel
with one entry per item in order. -/
def renderRetrievedContext (retrievedContext : List RetrievedContextItem) :
    Option ReferencesBox :=
  if retrievedContext.length = 0 then none
  else
    some
      { count := retrievedContext.length
        entries := retrievedContext.enum.map fun p =>
          renderReferenceEntry p.1 p.2 }

/-! ## `ResponseCards` component (`frontend/src/components/ResponseCards.tsx`) -/

/-- The body of one response column (`ResponseCards.tsx`): the loading
spinner, the markdown-rendered response text, or the no-response
placeholder. -/
inductive ColumnContent where
  | spinner : ColumnContent
  | rendered : String → ColumnContent
  | placeholder : ColumnContent
deriving DecidableEq, Repr

/-- Column body selection, shared by both columns (`ResponseCards.tsx`
conditional chain): spinner while loading with no text yet, the rendered
text when non-empty, else the placeholder. -/
def renderColumnContent (response : String) (loading : Bool) :
    ColumnContent :=
  if loading ∧ response = "" then .spinner
  else if response ≠ "" then .rendered response
  else .placeholder

/-- The rendered RAG column: its body plus the references panel rendered
from the retrieved context (`ResponseCards.tsx`, the
`RetrievedContext retrievedContext` child of the RAG card). -/
structure RagColumnView where
  content : ColumnContent
  references : Option ReferencesBox
deriving DecidableEq, Repr

/-- The rendered pair of cards. -/
structure ResponseCardsView where
  standard : ColumnContent
  rag : RagColumnView
deriving DecidableEq, Repr

/-- The `ResponseCards` component (`ResponseCards.tsx`): the standard
column is built from `standardResponse` and `loading`; the RAG column from
`ragResponse`, `loading` and `retrievedContext`. -/
def responseCards (standardResponse ragResponse : String)
    (retrievedContext : List RetrievedContextItem) (loading : Bool) :
    ResponseCardsView :=
  { standard := renderColumnContent standardResponse loading
    rag :=
      { content := renderColumnContent ragResponse loading
        references := renderRetrievedContext retrievedContext } }

/-! ## `App` submit handler (`frontend/src/App.tsx` lines 33-82) -/

/-- The exception caught by `handleSubmit`'s catch block
(`App.tsx` lines 65-76): an axios error carrying an optional
`response.data.error` body field and a `message`, a plain JS `Error` with a
`message`, or any other thrown value. -/
inductive SubmitError where
  | axiosErr : Option String → String → SubmitError
  | jsError : String → SubmitError
  | otherThrown : SubmitError
deriving DecidableEq, Repr

/-- The message chosen by the catch block (`App.tsx` lines 67-75).  The JS
chain `err.response?.data?.error || err.message || "An unknown error
occurred."` picks the first non-empty (truthy) string. -/
def catchErrorMessage : SubmitError → String
  | .axiosErr responseDataError message =>
    match responseDataError with
    | some e =>
      if e ≠ "" then e
      else if message ≠ "" then message
      else "An unknown error occurred."
    | none =>
      if message ≠ "" then message
      else "An unknown error occurred."
  | .jsError message => message
  | .otherThrown => "Failed to generate response."

/-- The outcome of the network call `axios.post(API_URL, \x7b query \x7d)`,
supplied by the environment: the parsed `ApiResponse` on success, or the
thrown error on failure. -/
inductive FetchOutcome where
  | success : ApiResponse → FetchOutcome
  | failure : SubmitError → FetchOutcome
deriving DecidableEq, Repr

/-- The state written at the top of the try path (`App.tsx` lines 40-44):
loading on, error and both responses cleared, context cleared. -/
def clearForSubmit (st : AppState) : AppState :=
  { st with
    loading := true
    error := ""
    standardResponse := ""
    ragResponse := ""
    retrievedContext := [] }

/-- The state written on a hardcoded hit (`App.tsx` lines 52-56). -/
def applyHardcodedResponse (st : AppState) (r : HardcodedApiResponse) :
    AppState :=
  { st with
    standardResponse := r.standard_response
    ragResponse := r.rag_response
    retrievedContext := r.retrieved_chunks }

/-- The state written on an API success (`App.tsx` lines 60-63). -/
def applyApiResponse (st : AppState) (resp : ApiResponse) : AppState :=
  { st with
    standardResponse := resp.standard_response
    ragResponse := resp.rag_response
    retrievedContext := resp.retrieved_chunks }

/-- The `finally` block (`App.tsx` lines 77-81): loading off, query reset. -/
def finallyStep (st : AppState) : AppState :=
  { st with loading := false, query := "" }

/-- `handleSubmit` (`App.tsx` lines 33-82) as a state transition.  The
second component records whether the Query API request was issued.  An
empty (after trim) query returns early with only the error message set
(lines 35-38); otherwise the state is cleared, the hardcoded store is
consulted first (lines 50-56), and only on a miss is the Query API called
(lines 57-64), its failure handled by the catch block (lines 65-76); the
`finally` block always runs on the try path. -/
def handleSubmit (store : HardcodedStore) (env : FetchOutcome)
    (st : AppState) : AppState × Bool :=
  if jsTrim st.query = "" then
    ({ st with error := "Please enter a query." }, false)
  else
    let st1 := clearForSubmit st
    match getHardcodedResponse store st.query with
    | some hardcodedResponse =>
      (finallyStep (applyHardcodedResponse st1 hardcodedResponse), false)
    | none =>
      match env with
      | .success resp => (finallyStep (applyApiResponse st1 resp), true)
      | .failure err =>
        (finallyStep
          { st1 with error := "Error: " ++ catchErrorMessage err }, true)

/-- The source-references block of `App`'s render (`App.tsx` lines
193-208): the whole results area renders only when a response exists or
loading, and inside it the references panel renders only when
`retrievedContext.length > 0`. -/
def appReferencesSection (st : AppState) : Option ReferencesBox :=
  if st.standardResponse ≠ "" ∨ st.ragResponse ≠ "" ∨ st.loading then
    if st.retrievedContext.length > 0 then
      renderRetrievedContext st.retrievedContext
    else none
  else none

/-! ## Citation-marker splitting (`processText` in `ResponseCards.tsx`)

`processText` splits a paragraph string on the regular expression
pattern of a citation marker - an opening bracket, digits, then any
number of comma-separated digit groups with optional whitespace, then a
closing bracket - keeping the matched separators (the regex has a capture
group), and re-emits every part: full-match parts become citation buttons
labelled with the part itself, all other parts are emitted verbatim.  The
regex character class of digits is `Char.isDigit`; the whitespace class is
modelled by `Char.isWhitespace`.  The pattern admits no backtracking
choice, so greedy maximal-munch parsing below matches the JS regex
semantics exactly. -/

/-- Parser for the `(?:,\s*\d+)*` tail of the citation-marker regex:
greedily consume comma, whitespace, digits groups; returns the consumed
prefix and the rest.  `fuel` bounds the recursion; each iteration consumes
at least two characters, so `l.length` fuel is always enough. -/
def parseGroups (fuel : Nat) (l : List Char) : List Char × List Char :=
  match fuel with
  | 0 => ([], l)
  | fuel + 1 =>
    match l with
    | ',' :: rest =>
      let sp := rest.takeWhile Char.isWhitespace
      let r1 := rest.dropWhile Char.isWhitespace
      let ds := r1.takeWhile Char.isDigit
      let r2 := r1.dropWhile Char.isDigit
      if ds = [] then ([], l)
      else
        let gr := parseGroups fuel r2
        (',' :: (sp ++ (ds ++ gr.1)), gr.2)
    | _ => ([], l)

/-- Matcher for the citation-marker regex at the head of the input: on
success, the matched marker and the rest. -/
def matchMarker (l : List Char) : Option (List Char × List Char) :=
  match l with
  | '[' :: rest =>
    let ds := rest.takeWhile Char.isDigit
    let r1 := rest.dropWhile Char.isDigit
    if ds = [] then none
    else
      let gr := parseGroups r1.length r1
      match gr.2 with
      | ']' :: r3 => some (('[' :: ds) ++ gr.1 ++ [']'], r3)
      | _ => none
  | _ => none

/-- The splitting scan of `String.prototype.split` with the
citation-marker regex and its capture group: walk the string left to
right; at the leftmost position where the marker matches, emit the pending
text part (possibly empty) and the matched separator, and continue after
it; at the end emit the final pending text part.  The termination argument
reproves inline that a successful marker match consumes at least one
character. -/
def splitGo (pending l : List Char) : List (List Char) :=
  match l with
  | [] => [pending.reverse]
  | c :: rest =>
    match h : matchMarker (c :: rest) with
    | some (m, r) => pending.reverse :: m :: splitGo [] r
    | none => splitGo (c :: pending) rest
termination_by l.length
decreasing_by
  · have hpg : ∀ (fuel : Nat) (l : List Char),
        (parseGroups fuel l).2.length ≤ l.length := by
      intro fuel
      induction fuel with
      | zero => intro l; simp [parseGroups]
      | succ fuel ih =>
        intro l
        simp only [parseGroups]
        split
        · split
          · simp
          · refine le_trans (ih _) ?_
            refine le_trans (List.dropWhile_sublist _).length_le ?_
            refine le_trans (List.dropWhile_sublist _).length_le ?_
            simp
        · simp
    have hr : r.length < (c :: rest).length := by
      simp only [matchMarker] at h
      split at h
      next rest2 heq2 =>
        split at h
        · exact absurd h (by simp)
        · split at h
          next r3 heq3 =>
            simp only [Option.some.injEq, Prod.mk.injEq] at h
            obtain ⟨-, hr3⟩ := h
            subst hr3
            have h1 : (']' :: r3).length ≤
                (List.dropWhile Char.isDigit rest2).length := by
              rw [← heq3]; exact hpg _ _
            have h2 : (List.dropWhile Char.isDigit rest2).length ≤
                rest2.length := (List.dropWhile_sublist _).length_le
            have h3 : (c :: rest).length = rest2.length + 1 := by
              rw [heq2]; simp
            simp only [List.length_cons] at h1 h3 ⊢
            omega
          next => exact absurd h (by simp)
      next => exact absurd h (by simp)
    simpa using hr
  · simp

/-- `text.split(regex)` for the citation-marker regex with its capture
group (`ResponseCards.tsx`, `processText`): the resulting parts alternate
text, separator, text, ..., text, with empty text parts kept, exactly as
in JS. -/
def jsSplitCitations (text : String) : List String :=
  (splitGo [] text.data).map String.mk

/-- The anchored test `part.match` against the marker pattern with both
anchors (`ResponseCards.tsx`, `processText`): the whole part is one
citation marker. -/
def isCitationMarker (part : String) : Bool :=
  match matchMarker part.data with
  | some (_, r) => r.isEmpty
  | none => false

/-- One inline element emitted by `processText`: a citation button whose
label is the matched marker text, or a verbatim text run. -/
inductive InlineElem where
  | citationButton : String → InlineElem
  | plainText : String → InlineElem
deriving DecidableEq, Repr

/-- The text carried by an emitted inline element (a button renders its
label, a text run renders itself). -/
def inlineElemText : InlineElem → String
  | .citationButton label => label
  | .plainText s => s

/-- `processText` (`ResponseCards.tsx`): split the paragraph on the
citation-marker pattern keeping separators, then re-emit each part as a
button when it fully matches the marker pattern and verbatim otherwise. -/
def processText (text : String) : List InlineElem :=
  (jsSplitCitations text).map fun part =>
    if isCitationMarker part then .citationButton part else .plainText part

/-! ## Helper lemmas -/

/-- What `parseGroups` consumes plus what it leaves is the input. -/
theorem parseGroups_append (fuel : Nat) (l : List Char) :
    (parseGroups fuel l).1 ++ (parseGroups fuel l).2 = l := by
  induction fuel generalizing l with
  | zero => simp [parseGroups]
  | succ fuel ih =>
    match l with
    | [] => simp [parseGroups]
    | c :: rest =>
      by_cases hc : c = ','
      · subst hc
        simp only [parseGroups]
        split
        · simp
        · have h1 := ih (rest.dropWhile Char.isWhitespace
            |>.dropWhile Char.isDigit)
          simp only [List.cons_append, List.append_assoc]
          rw [h1, List.takeWhile_append_dropWhile,
            List.takeWhile_append_dropWhile]
      · have : parseGroups (fuel + 1) (c :: rest) = ([], c :: rest) := by
          unfold parseGroups
          split <;> simp_all
        rw [this]
        simp

/-- A successful marker match splits the input: the match followed by the
rest is the input, and the match is non-empty. -/
theorem matchMarker_spec {l m r : List Char}
    (h : matchMarker l = some (m, r)) : m ++ r = l ∧ m ≠ [] := by
  match l with
  | [] => simp [matchMarker] at h
  | c :: rest =>
    by_cases hc : c = '['
    · subst hc
      simp only [matchMarker] at h
      split at h
      · exact absurd h (by simp)
      · split at h
        next r3 heq =>
          simp only [Option.some.injEq, Prod.mk.injEq] at h
          obtain ⟨hm, hr⟩ := h
          subst hm; subst hr
          constructor
          · have hp := parseGroups_append (rest.dropWhile Char.isDigit).length
              (rest.dropWhile Char.isDigit)
            simp only [List.append_assoc, List.cons_append,
              List.singleton_append]
            rw [List.nil_append, ← heq, hp, List.takeWhile_append_dropWhile]
          · simp
        next => exact absurd h (by simp)
    · have : matchMarker (c :: rest) = none := by
        unfold matchMarker
        split <;> simp_all
      rw [this] at h
      exact absurd h (by simp)

/-- Concatenating everything the splitting scan produces gives back the
pending prefix followed by the rest of the input: splitting loses no
characters and reorders nothing. -/
theorem splitGo_flatten (pending l : List Char) :
    (splitGo pending l).flatten = pending.reverse ++ l := by
  induction pending, l using splitGo.induct with
  | case1 pending => simp [splitGo]
  | case2 pending c rest m r h ih =>
    have hs := matchMarker_spec h
    rw [splitGo]
    split
    next heq =>
      rw [h] at heq
      simp only [Option.some.injEq, Prod.mk.injEq] at heq
      obtain ⟨hm, hr⟩ := heq
      subst hm; subst hr
      simp only [List.flatten_cons, ih, List.reverse_nil, List.nil_append]
      rw [hs.1]
    next heq => rw [h] at heq; exact absurd heq (by simp)
  | case3 pending c rest h ih =>
    rw [splitGo]
    split
    next heq => rw [h] at heq; exact absurd heq (by simp)
    next =>
      rw [ih]
      simp

/-- `String.join` on strings built from character lists is `String.mk` of
the flattened lists. -/
theorem join_map_mk (L : List (List Char)) :
    String.join (L.map String.mk) = String.mk L.flatten := by
  have aux : ∀ (L : List (List Char)) (acc : List Char),
      (L.map String.mk).foldl (· ++ ·) (String.mk acc) =
        String.mk (acc ++ L.flatten) := by
    intro L
    induction L with
    | nil => intro acc; simp
    | cons a L ih =>
      intro acc
      simp only [List.map_cons, List.foldl_cons, List.flatten_cons]
      have : String.mk acc ++ String.mk a = String.mk (acc ++ a) := rfl
      rw [this, ih]
      simp
  have := aux L []
  simpa [String.join] using this

/-! ## Claim theorems -/

/-- C9: splitting a RAG-response paragraph on the citation-marker pattern
and re-emitting every part - markers as buttons labelled with the marker
text itself, all other parts verbatim - reproduces the original string
with no characters added, dropped or reordered. -/
theorem c9_processText_preserves_text (text : String) :
    String.join ((processText text).map inlineElemText) = text := by
  have hmap : (processText text).map inlineElemText =
      jsSplitCitations text := by
    simp only [processText, List.map_map]
    have : (inlineElemText ∘ fun part =>
        if isCitationMarker part then InlineElem.citationButton part
        else InlineElem.plainText part) = id := by
      funext part
      by_cases hc : isCitationMarker part <;> simp [hc, inlineElemText]
    rw [this, List.map_id]
  rw [hmap]
  show String.join ((splitGo [] text.data).map String.mk) = text
  rw [join_map_mk, splitGo_flatten]
  simp

/-- C10: submitting with a query that is empty or whitespace-only sets the
error message, issues no request, and leaves loading and the previously
displayed responses and retrieved context unchanged. -/
theorem c10_blank_query_rejected (store : HardcodedStore)
    (env : FetchOutcome) (st : AppState) (h : jsTrim st.query = "") :
    (handleSubmit store env st).1.error = "Please enter a query." ∧
    (handleSubmit store env st).2 = false ∧
    (handleSubmit store env st).1.loading = st.loading ∧
    (handleSubmit store env st).1.standardResponse = st.standardResponse ∧
    (handleSubmit store env st).1.ragResponse = st.ragResponse ∧
    (handleSubmit store env st).1.retrievedContext = st.retrievedContext := by
  simp [handleSubmit, h]

/-- Witness for C10 at a whitespace-only query over empty stored data. -/
theorem c10_blank_query_rejected_witness :
    (handleSubmit []
      (.success { standard_response := "", rag_response := "",
                  retrieved_chunks := [], error := none })
      { query := "   ", standardResponse := "old-std",
        ragResponse := "old-rag", retrievedContext := [],
        loading := false, error := "" }).1.error = "Please enter a query." ∧
    (handleSubmit []
      (.success { standard_response := "", rag_response := "",
                  retrieved_chunks := [], error := none })
      { query := "   ", standardResponse := "old-std",
        ragResponse := "old-rag", retrievedContext := [],
        loading := false, error := "" }).2 = false ∧
    (handleSubmit []
      (.success { standard_response := "", rag_response := "",
                  retrieved_chunks := [], error := none })
      { query := "   ", standardResponse := "old-std",
        ragResponse := "old-rag", retrievedContext := [],
        loading := false, error := "" }).1.loading = false ∧
    (handleSubmit []
      (.success { standard_response := "", rag_response := "",
                  retrieved_chunks := [], error := none })
      { query := "   ", standardResponse := "old-std",
        ragResponse := "old-rag", retrievedContext := [],
        loading := false, error := "" }).1.standardResponse = "old-std" ∧
    (handleSubmit []
      (.success { standard_response := "", rag_response := "",
                  retrieved_chunks := [], error := none })
      { query := "   ", standardResponse := "old-std",
        ragResponse := "old-rag", retrievedContext := [],
        loading := false, error := "" }).1.ragResponse = "old-rag" ∧
    (handleSubmit []
      (.success { standard_response := "", rag_response := "",
                  retrieved_chunks := [], error := none })
      { query := "   ", standardResponse := "old-std",
        ragResponse := "old-rag", retrievedContext := [],
        loading := false, error := "" }).1.retrievedContext = [] :=
  c10_blank_query_rejected _ _ _ (by rfl)

/-- C2: an `ApiResponse` is fully determined by the four fields
`standard_response`, `rag_response`, `retrieved_chunks`, `error`, with
each retrieved chunk fully determined by `text`, `source`, `title`,
`date`, `article_id`, `min_distance`; and the presentation layer consumes
exactly the three response fields into its displayed state. -/
theorem c2_api_response_shape :
    (∀ a b : ApiResponse,
      a.standard_response = b.standard_response →
      a.rag_response = b.rag_response →
      a.retrieved_chunks = b.retrieved_chunks →
      a.error = b.error → a = b) ∧
    (∀ a b : RetrievedContextItem,
      a.text = b.text → a.source = b.source → a.title = b.title →
      a.date = b.date → a.article_id = b.article_id →
      a.min_distance = b.min_distance → a = b) ∧
    (∀ (st : AppState) (resp : ApiResponse),
      (applyApiResponse st resp).standardResponse = resp.standard_response ∧
      (applyApiResponse st resp).ragResponse = resp.rag_response ∧
      (applyApiResponse st resp).retrievedContext = resp.retrieved_chunks) := by
  refine ⟨?_, ?_, ?_⟩
  · intro a b h1 h2 h3 h4
    cases a; cases b; simp_all
  · intro a b h1 h2 h3 h4 h5 h6
    cases a; cases b; simp_all
  · intro st resp
    exact ⟨rfl, rfl, rfl⟩

/-- Witness for C2 at concrete responses and state. -/
theorem c2_api_response_shape_witness :
    ({ standard_response := "s", rag_response := "r",
       retrieved_chunks := [], error := none } : ApiResponse) =
      { standard_response := "s", rag_response := "r",
        retrieved_chunks := [], error := none } ∧
    (applyApiResponse
      { query := "", standardResponse := "", ragResponse := "",
        retrievedContext := [], loading := false, error := "" }
      { standard_response := "s", rag_response := "r",
        retrieved_chunks := [], error := none }).standardResponse = "s" :=
  ⟨c2_api_response_shape.1 _ _ rfl rfl rfl rfl,
    (c2_api_response_shape.2.2
      { query := "", standardResponse := "", ragResponse := "",
        retrievedContext := [], loading := false, error := "" }
      { standard_response := "s", rag_response := "r",
        retrieved_chunks := [], error := none }).1⟩

/-- C4: the reference entry at 0-based position `i` of the rendered
references list carries citation index `i + 1`, so the citation label
matches the entry's 1-based position in the returned context list. -/
theorem c4_citation_index_matches_position
    (ctx : List RetrievedContextItem) (box : ReferencesBox)
    (h : renderRetrievedContext ctx = some box)
    (i : Nat) (hi : i < box.entries.length) :
    (box.entries.get ⟨i, hi⟩).citationIndex = i + 1 := by
  have hbox : box.entries = ctx.enum.map fun p =>
      renderReferenceEntry p.1 p.2 := by
    unfold renderRetrievedContext at h
    split at h
    · exact absurd h (by simp)
    · simp only [Option.some.injEq] at h
      rw [← h]
  simp only [List.get_eq_getElem]
  rw [List.getElem_of_eq hbox]
  simp [List.getElem_map, List.getElem_enum, renderReferenceEntry]

/-- Witness for C4 at a one-item context list. -/
theorem c4_citation_index_matches_position_witness :
    ((ReferencesBox.mk 1
      [renderReferenceEntry 0
        { text := "t", source := "u", title := "h", date := "d",
          article_id := none, min_distance := none }]).entries.get
      ⟨0, by decide⟩).citationIndex = 0 + 1 :=
  c4_citation_index_matches_position
    [{ text := "t", source := "u", title := "h", date := "d",
       article_id := none, min_distance := none }]
    _ (by rfl) 0 (by decide)

/-- C3: the rendered reference entries carry the input items unchanged -
the stored `min_distance` stays the raw distance - and whenever
`min_distance` is a number, the similarity value shown is `1 -
min_distance`, computed at display time from the raw field. -/
theorem c3_similarity_one_minus_raw_distance
    (ctx : List RetrievedContextItem) (box : ReferencesBox)
    (h : renderRetrievedContext ctx = some box) :
    box.entries.map (·.sourceItem) = ctx ∧
    ∀ e ∈ box.entries, ∀ d : ℚ, e.sourceItem.min_distance = some d →
      e.similarity = some (1 - d) := by
  have hbox : box.entries = ctx.enum.map fun p =>
      renderReferenceEntry p.1 p.2 := by
    unfold renderRetrievedContext at h
    split at h
    · exact absurd h (by simp)
    · simp only [Option.some.injEq] at h
      rw [← h]
  constructor
  · rw [hbox, List.map_map]
    have : ((fun e : ReferenceEntry => e.sourceItem) ∘ fun
        p : Nat × RetrievedContextItem =>
        renderReferenceEntry p.1 p.2) = Prod.snd := by
      funext p
      rfl
    rw [this, List.enum_map_snd]
  · intro e he d hd
    rw [hbox] at he
    obtain ⟨p, -, hpe⟩ := List.mem_map.mp he
    rw [← hpe] at hd ⊢
    simp only [renderReferenceEntry] at hd ⊢
    rw [hd]
    rfl

/-- Witness for C3 at a one-item context list with raw distance 3/10. -/
theorem c3_similarity_one_minus_raw_distance_witness :
    (ReferencesBox.mk 1
      [renderReferenceEntry 0
        { text := "t", source := "u", title := "h", date := "d",
          article_id := none, min_distance := some (3/10) }]).entries.map
      (·.sourceItem) =
      [{ text := "t", source := "u", title := "h", date := "d",
         article_id := none, min_distance := some (3/10) }] ∧
    ∀ e ∈ (ReferencesBox.mk 1
      [renderReferenceEntry 0
        { text := "t", source := "u", title := "h", date := "d",
          article_id := none, min_distance := some (3/10) }]).entries,
      ∀ d : ℚ, e.sourceItem.min_distance = some d →
        e.similarity = some (1 - d) :=
  c3_similarity_one_minus_raw_distance
    [{ text := "t", source := "u", title := "h", date := "d",
       article_id := none, min_distance := some (3/10) }] _ (by rfl)

/-- C5: in `ResponseCards`, the standard column is a function of only the
standard response and the loading flag, the RAG column a function of only
the RAG response, the retrieved context and the loading flag; and when one
response is present while the other is empty, the present one renders
while the other column shows the placeholder, in both directions. -/
theorem c5_columns_independent :
    (∀ (s r r2 : String) (ctx ctx2 : List RetrievedContextItem)
      (l : Bool),
      (responseCards s r ctx l).standard =
        (responseCards s r2 ctx2 l).standard) ∧
    (∀ (s s2 r : String) (ctx : List RetrievedContextItem) (l : Bool),
      (responseCards s r ctx l).rag = (responseCards s2 r ctx l).rag) ∧
    (∀ (s r : String) (ctx : List RetrievedContextItem),
      s ≠ "" → r = "" →
      (responseCards s r ctx false).standard = .rendered s ∧
      (responseCards s r ctx false).rag.content = .placeholder) ∧
    (∀ (s r : String) (ctx : List RetrievedContextItem),
      s = "" → r ≠ "" →
      (responseCards s r ctx false).standard = .placeholder ∧
      (responseCards s r ctx false).rag.content = .rendered r) := by
  refine ⟨fun s r r2 ctx ctx2 l => rfl, fun s s2 r ctx l => rfl, ?_, ?_⟩
  · intro s r ctx hs hr
    constructor <;> simp [responseCards, renderColumnContent, hs, hr]
  · intro s r ctx hs hr
    constructor <;> simp [responseCards, renderColumnContent, hs, hr]

/-- Witness for C5: standard response present, RAG response empty. -/
theorem c5_columns_independent_witness :
    (responseCards "baseline answer" "" [] false).standard =
      .rendered "baseline answer" ∧
    (responseCards "baseline answer" "" [] false).rag.content =
      .placeholder :=
  c5_columns_independent.2.2.1 "baseline answer" "" []
    (by decide) rfl

/-- C6: an empty retrieval result is not an error: the references
component returns null on an empty list, the app renders no references
section when the retrieved context is empty, and a successful API reply
with no retrieved chunks leaves the error message empty. -/
theorem c6_empty_context_not_error :
    renderRetrievedContext ([] : List RetrievedContextItem) = none ∧
    (∀ st : AppState, st.retrievedContext = [] →
      appReferencesSection st = none) ∧
    (∀ (store : HardcodedStore) (st : AppState) (resp : ApiResponse),
      jsTrim st.query ≠ "" →
      getHardcodedResponse store st.query = none →
      resp.retrieved_chunks = [] →
      (handleSubmit store (.success resp) st).1.error = "" ∧
      appReferencesSection (handleSubmit store (.success resp) st).1 =
        none) := by
  refine ⟨rfl, ?_, ?_⟩
  · intro st hst
    simp [appReferencesSection, hst]
  · intro store st resp hq hmiss hchunks
    have hres : (handleSubmit store (.success resp) st).1 =
        finallyStep (applyApiResponse (clearForSubmit st) resp) := by
      simp [handleSubmit, hq, hmiss]
    rw [hres]
    constructor
    · rfl
    · simp [appReferencesSection, finallyStep, applyApiResponse,
        clearForSubmit, hchunks]

/-- Witness for C6 at a concrete state and an empty-chunks reply. -/
theorem c6_empty_context_not_error_witness :
    renderRetrievedContext ([] : List RetrievedContextItem) = none ∧
    appReferencesSection
      { query := "", standardResponse := "", ragResponse := "",
        retrievedContext := [], loading := false, error := "" } = none ∧
    (handleSubmit []
      (.success { standard_response := "s", rag_response := "r",
                  retrieved_chunks := [], error := none })
      { query := "q", standardResponse := "", ragResponse := "",
        retrievedContext := [], loading := false, error := "" }).1.error =
      "" ∧
    appReferencesSection
      (handleSubmit []
        (.success { standard_response := "s", rag_response := "r",
                    retrieved_chunks := [], error := none })
        { query := "q", standardResponse := "", ragResponse := "",
          retrievedContext := [], loading := false,
          error := "" }).1 = none :=
  ⟨c6_empty_context_not_error.1,
    c6_empty_context_not_error.2.1 _ rfl,
    (c6_empty_context_not_error.2.2 [] _ _ (by decide) (by rfl) rfl).1,
    (c6_empty_context_not_error.2.2 [] _ _ (by decide) (by rfl) rfl).2⟩

/-- C1 counterexample: with a stored hardcoded record matching the
submitted query, the displayed response pair comes from the hardcoded
store and differs from the Query API reply, and no API request is issued -
so the Query API is not the source of every displayed response pair. -/
theorem c1_counterexample :
    (handleSubmit
      [("1", { question := "What happened?", category := "World",
               standard_response := "HC-STD", rag_response := "HC-RAG",
               context := [], metadata := none })]
      (.success { standard_response := "API-STD",
                  rag_response := "API-RAG",
                  retrieved_chunks := [], error := none })
      { query := "What happened?", standardResponse := "",
        ragResponse := "", retrievedContext := [], loading := false,
        error := "" }).2 = false ∧
    (handleSubmit
      [("1", { question := "What happened?", category := "World",
               standard_response := "HC-STD", rag_response := "HC-RAG",
               context := [], metadata := none })]
      (.success { standard_response := "API-STD",
                  rag_response := "API-RAG",
                  retrieved_chunks := [], error := none })
      { query := "What happened?", standardResponse := "",
        ragResponse := "", retrievedContext := [], loading := false,
        error := "" }).1.standardResponse = "HC-STD" ∧
    "HC-STD" ≠ "API-STD" := by
  refine ⟨by rfl, by rfl, by decide⟩

/-- C1 as amended: on a non-blank query the presentation layer first
consults the hardcoded-response store; when a record matches, the
displayed responses and context come from that record and no Query API
request is issued; only when no record matches is the query sent to the
Query API, whose reply is then the source of the displayed pair. -/
theorem c1_hardcoded_store_precedes_api (store : HardcodedStore)
    (env : FetchOutcome) (st : AppState) (hq : jsTrim st.query ≠ "") :
    (∀ hr : HardcodedApiResponse,
      getHardcodedResponse store st.query = some hr →
      (handleSubmit store env st).2 = false ∧
      (handleSubmit store env st).1.standardResponse =
        hr.standard_response ∧
      (handleSubmit store env st).1.ragResponse = hr.rag_response ∧
      (handleSubmit store env st).1.retrievedContext =
        hr.retrieved_chunks) ∧
    (∀ resp : ApiResponse,
      getHardcodedResponse store st.query = none →
      env = .success resp →
      (handleSubmit store env st).2 = true ∧
      (handleSubmit store env st).1.standardResponse =
        resp.standard_response ∧
      (handleSubmit store env st).1.ragResponse = resp.rag_response ∧
      (handleSubmit store env st).1.retrievedContext =
        resp.retrieved_chunks) := by
  constructor
  · intro hr hhit
    simp [handleSubmit, hq, hhit, finallyStep, applyHardcodedResponse,
      clearForSubmit]
  · intro resp hmiss henv
    subst henv
    simp [handleSubmit, hq, hmiss, finallyStep, applyApiResponse,
      clearForSubmit]

/-- Witness for the amended C1, exercising both the hardcoded-hit path at
a matching query and the API path at a missing one. -/
theorem c1_hardcoded_store_precedes_api_witness :
    ((handleSubmit
      [("1", { question := "Q one", category := "c",
               standard_response := "hs", rag_response := "hr",
               context := [], metadata := none })]
      (.success { standard_response := "as", rag_response := "ar",
                  retrieved_chunks := [], error := none })
      { query := "Q one", standardResponse := "", ragResponse := "",
        retrievedContext := [], loading := false,
        error := "" }).2 = false ∧
     (handleSubmit
      [("1", { question := "Q one", category := "c",
               standard_response := "hs", rag_response := "hr",
               context := [], metadata := none })]
      (.success { standard_response := "as", rag_response := "ar",
                  retrieved_chunks := [], error := none })
      { query := "Q one", standardResponse := "", ragResponse := "",
        retrievedContext := [], loading := false,
        error := "" }).1.standardResponse = "hs" ∧
     (handleSubmit
      [("1", { question := "Q one", category := "c",
               standard_response := "hs", rag_response := "hr",
               context := [], metadata := none })]
      (.success { standard_response := "as", rag_response := "ar",
                  retrieved_chunks := [], error := none })
      { query := "Q one", standardResponse := "", ragResponse := "",
        retrievedContext := [], loading := false,
        error := "" }).1.ragResponse = "hr" ∧
     (handleSubmit
      [("1", { question := "Q one", category := "c",
               standard_response := "hs", rag_response := "hr",
               context := [], metadata := none })]
      (.success { standard_response := "as", rag_response := "ar",
                  retrieved_chunks := [], error := none })
      { query := "Q one", standardResponse := "", ragResponse := "",
        retrievedContext := [], loading := false,
        error := "" }).1.retrievedContext = []) ∧
    ((handleSubmit []
      (.success { standard_response := "as", rag_response := "ar",
                  retrieved_chunks := [], error := none })
      { query := "Q one", standardResponse := "", ragResponse := "",
        retrievedContext := [], loading := false,
        error := "" }).2 = true ∧
     (handleSubmit []
      (.success { standard_response := "as", rag_response := "ar",
                  retrieved_chunks := [], error := none })
      { query := "Q one", standardResponse := "", ragResponse := "",
        retrievedContext := [], loading := false,
        error := "" }).1.standardResponse = "as" ∧
     (handleSubmit []
      (.success { standard_response := "as", rag_response := "ar",
                  retrieved_chunks := [], error := none })
      { query := "Q one", standardResponse := "", ragResponse := "",
        retrievedContext := [], loading := false,
        error := "" }).1.ragResponse = "ar" ∧
     (handleSubmit []
      (.success { standard_response := "as", rag_response := "ar",
                  retrieved_chunks := [], error := none })
      { query := "Q one", standardResponse := "", ragResponse := "",
        retrievedContext := [], loading := false,
        error := "" }).1.retrievedContext = []) :=
  ⟨(c1_hardcoded_store_precedes_api _ _ _ (by decide)).1
      { standard_response := "hs", rag_response := "hr",
        retrieved_chunks := [],
        metadata := { query := "Q one", retrieval_time := 0,
                      llm_time := 0, total_time := 0,
                      chunks_retrieved := 0,
                      total_context_length := 0 } } (by rfl),
   (c1_hardcoded_store_precedes_api _ _ _ (by decide)).2
      { standard_response := "as", rag_response := "ar",
        retrieved_chunks := [], error := none } (by rfl) rfl⟩

/-- C7 counterexample: an API failure whose response body carries the
error field with the empty string does not display the claimed message
`Error: ` followed by that (empty) error text - the JS truthiness
fallback shows the exception message instead. -/
theorem c7_counterexample :
    (handleSubmit []
      (.failure (.axiosErr (some "") "Network Error"))
      { query := "q", standardResponse := "", ragResponse := "",
        retrievedContext := [], loading := false,
        error := "" }).1.error = "Error: Network Error" ∧
    "Error: Network Error" ≠ "Error: " ++ "" := by
  refine ⟨by rfl, by decide⟩

/-- C7 as amended: when the Query API call fails with a response body
whose error field is a non-empty string, the shown message is `Error: `
followed by that text; when the field is absent or empty, it falls back
to the exception's (non-empty) message; and the previously cleared
responses and context remain empty. -/
theorem c7_api_failure_error_message (store : HardcodedStore)
    (st : AppState) (rde : Option String) (msg : String)
    (hq : jsTrim st.query ≠ "")
    (hmiss : getHardcodedResponse store st.query = none) :
    (∀ t : String, rde = some t → t ≠ "" →
      (handleSubmit store (.failure (.axiosErr rde msg)) st).1.error =
        "Error: " ++ t) ∧
    (rde = none → msg ≠ "" →
      (handleSubmit store (.failure (.axiosErr rde msg)) st).1.error =
        "Error: " ++ msg) ∧
    (rde = some "" → msg ≠ "" →
      (handleSubmit store (.failure (.axiosErr rde msg)) st).1.error =
        "Error: " ++ msg) ∧
    (handleSubmit store
      (.failure (.axiosErr rde msg)) st).1.standardResponse = "" ∧
    (handleSubmit store
      (.failure (.axiosErr rde msg)) st).1.ragResponse = "" ∧
    (handleSubmit store
      (.failure (.axiosErr rde msg)) st).1.retrievedContext = [] := by
  have hres : (handleSubmit store (.failure (.axiosErr rde msg)) st).1 =
      finallyStep { clearForSubmit st with
        error := "Error: " ++ catchErrorMessage (.axiosErr rde msg) } := by
    simp [handleSubmit, hq, hmiss]
  refine ⟨?_, ?_, ?_, by rw [hres]; rfl, by rw [hres]; rfl,
    by rw [hres]; rfl⟩
  · intro t ht htne
    subst ht
    rw [hres]
    simp [finallyStep, clearForSubmit, catchErrorMessage, htne]
  · intro hnone hmsg
    subst hnone
    rw [hres]
    simp [finallyStep, clearForSubmit, catchErrorMessage, hmsg]
  · intro hempty hmsg
    subst hempty
    rw [hres]
    simp [finallyStep, clearForSubmit, catchErrorMessage, hmsg]

/-- Witness for the amended C7 at a failure with a non-empty body error
field. -/
theorem c7_api_failure_error_message_witness :
    (handleSubmit []
      (.failure (.axiosErr (some "boom") "Network Error"))
      { query := "q", standardResponse := "", ragResponse := "",
        retrievedContext := [], loading := false,
        error := "" }).1.error = "Error: " ++ "boom" ∧
    (handleSubmit []
      (.failure (.axiosErr (some "boom") "Network Error"))
      { query := "q", standardResponse := "", ragResponse := "",
        retrievedContext := [], loading := false,
        error := "" }).1.standardResponse = "" ∧
    (handleSubmit []
      (.failure (.axiosErr (some "boom") "Network Error"))
      { query := "q", standardResponse := "", ragResponse := "",
        retrievedContext := [], loading := false,
        error := "" }).1.ragResponse = "" ∧
    (handleSubmit []
      (.failure (.axiosErr (some "boom") "Network Error"))
      { query := "q", standardResponse := "", ragResponse := "",
        retrievedContext := [], loading := false,
        error := "" }).1.retrievedContext = [] := by
  have h := c7_api_failure_error_message []
    { query := "q", standardResponse := "", ragResponse := "",
      retrievedContext := [], loading := false, error := "" }
    (some "boom") "Network Error" (by decide) (by rfl)
  exact ⟨h.1 "boom" rfl (by decide), h.2.2.2.1, h.2.2.2.2.1, h.2.2.2.2.2⟩

/-- Looking a pair up by its own key finds exactly that pair when the
store's keys are unique (as JS object keys are). -/
theorem store_find_key (store : HardcodedStore)
    (p : String × HardcodedResponse)
    (hnd : (store.map Prod.fst).Nodup) (hp : p ∈ store) :
    store.find? (fun x => x.1 == p.1) = some p := by
  induction store with
  | nil => simp at hp
  | cons hd tl ih =>
    rcases List.mem_cons.mp hp with h | h
    · subst h
      simp [List.find?_cons]
    · have hnd2 : (tl.map Prod.fst).Nodup := (List.nodup_cons.mp hnd).2
      have hq : hd.1 ∉ tl.map Prod.fst := (List.nodup_cons.mp hnd).1
      have hqp : (hd.1 == p.1) = false := by
        have hmem : p.1 ∈ tl.map Prod.fst := List.mem_map_of_mem _ h
        simp only [beq_eq_false_iff_ne, ne_eq]
        intro he
        rw [he] at hq
        exact hq hmem
      rw [List.find?_cons, hqp]
      exact ih hnd2 h

/-- Characterization of `getHardcodedResponse` on a hit: when the
question search finds a pair, the result is that pair's record
repackaged. -/
theorem getHardcodedResponse_of_find (store : HardcodedStore) (q : String)
    (hkeys : (store.map Prod.fst).Nodup)
    (p0 : String × HardcodedResponse)
    (hfind : store.find?
      (fun x => jsToLower x.2.question == jsToLower q) = some p0) :
    getHardcodedResponse store q = some
      { standard_response := p0.2.standard_response
        rag_response := p0.2.rag_response
        retrieved_chunks := p0.2.context
        metadata :=
          { query := q
            retrieval_time := (p0.2.metadata.map (·.retrieval_time)).getD 0
            llm_time := (p0.2.metadata.map (·.total_llm_time)).getD 0
            total_time := (p0.2.metadata.map (·.generation_time)).getD 0
            chunks_retrieved := p0.2.context.length
            total_context_length :=
              (p0.2.metadata.map (·.context_chars)).getD 0 } } := by
  obtain ⟨k0, hr0⟩ := p0
  have hmem := List.mem_of_find?_eq_some hfind
  have hkey := store_find_key store (k0, hr0) hkeys hmem
  simp only [getHardcodedResponse, findResponseByQuestion, hfind,
    Option.map_some']
  rw [hkey]

/-- C8: `getHardcodedResponse` returns `none` exactly when no stored
record's question equals the query case-insensitively; on a hit it
returns the record found by the case-insensitive question search, with
`standard_response`, `rag_response` and `retrieved_chunks` taken from the
record unchanged and `metadata.chunks_retrieved` equal to the record's
context length.  Keys of the store are unique, as JS object keys are. -/
theorem c8_hardcoded_lookup (store : HardcodedStore) (q : String)
    (hkeys : (store.map Prod.fst).Nodup) :
    (getHardcodedResponse store q = none ↔
      ∀ p ∈ store, jsToLower p.2.question ≠ jsToLower q) ∧
    (∀ r : HardcodedApiResponse, getHardcodedResponse store q = some r →
      ∃ p, store.find?
          (fun x => jsToLower x.2.question == jsToLower q) = some p ∧
        r.standard_response = p.2.standard_response ∧
        r.rag_response = p.2.rag_response ∧
        r.retrieved_chunks = p.2.context ∧
        r.metadata.chunks_retrieved = p.2.context.length) := by
  constructor
  · constructor
    · intro hnone
      cases hfind : store.find?
          (fun x => jsToLower x.2.question == jsToLower q) with
      | none =>
        intro p hp
        have := List.find?_eq_none.mp hfind p hp
        simpa using this
      | some p0 =>
        rw [getHardcodedResponse_of_find store q hkeys p0 hfind] at hnone
        exact absurd hnone (by simp)
    · intro hall
      have hfind : store.find?
          (fun x => jsToLower x.2.question == jsToLower q) = none := by
        refine List.find?_eq_none.mpr ?_
        intro p hp
        simpa using hall p hp
      simp [getHardcodedResponse, findResponseByQuestion, hfind]
  · intro r hr
    cases hfind : store.find?
        (fun x => jsToLower x.2.question == jsToLower q) with
    | none =>
      rw [getHardcodedResponse, findResponseByQuestion, hfind] at hr
      simp at hr
    | some p0 =>
      rw [getHardcodedResponse_of_find store q hkeys p0 hfind] at hr
      simp only [Option.some.injEq] at hr
      exact ⟨p0, rfl, by rw [← hr], by rw [← hr], by rw [← hr],
        by rw [← hr]⟩

/-- Witness for C8 at a one-record store matched case-insensitively. -/
theorem c8_hardcoded_lookup_witness :
    (getHardcodedResponse
      [("1", { question := "hello there", category := "c",
               standard_response := "hs", rag_response := "hr",
               context := [], metadata := none })] "HELLO There" =
        none ↔
      ∀ p ∈ [(("1" : String),
        ({ question := "hello there", category := "c",
           standard_response := "hs", rag_response := "hr",
           context := [], metadata := none } : HardcodedResponse))],
        jsToLower p.2.question ≠ jsToLower "HELLO There") ∧
    (∀ r : HardcodedApiResponse,
      getHardcodedResponse
        [("1", { question := "hello there", category := "c",
                 standard_response := "hs", rag_response := "hr",
                 context := [], metadata := none })] "HELLO There" =
          some r →
      ∃ p, ([(("1" : String),
          ({ question := "hello there", category := "c",
             standard_response := "hs", rag_response := "hr",
             context := [], metadata := none } : HardcodedResponse))].find?
          (fun x => jsToLower x.2.question == jsToLower "HELLO There")) =
            some p ∧
        r.standard_response = p.2.standard_response ∧
        r.rag_response = p.2.rag_response ∧
        r.retrieved_chunks = p.2.context ∧
        r.metadata.chunks_retrieved = p.2.context.length) :=
  c8_hardcoded_lookup
    [("1", { question := "hello there", category := "c",
             standard_response := "hs", rag_response := "hr",
             context := [], metadata := none })] "HELLO There"
    (by decide)
